import Mathlib

/-!
Verification of `server.py`, a local static-file HTTP server.

The development shallowly embeds the parts of the program the claims are
about:

* `CustomHTTPRequestHandler.log_message` (lines 23-40) — argument
  percent-decoding with a fallback on failure, and the single printed
  access-log line;
* `CustomHTTPRequestHandler.end_headers` (lines 42-48) — the CORS and
  cache-control headers attached before the header block is completed;
* `start_server` (lines 50-113) — directory validation, `os.chdir`,
  `TCPServer` bind, banner, serve loop, and the `KeyboardInterrupt` /
  `OSError` handlers;
* `main` (lines 115-159) — port-range and directory validation and the
  final `sys.exit`.

External effects are made explicit: printed output is a `List String`
(one element per `print` call), the filesystem and the outcome of the
bind are an `Env`, the working directory and the order of the `chdir`
and bind effects are threaded through the results.  The standard-library
decoder `urllib.parse.unquote` is a parameter `dec : String → Option
String` (`none` models the call raising, which line 32 catches).
-/

namespace Server

/-! ## Access logger (`log_message`, lines 23-40) -/

/-- An argument passed by the base handler to `log_message`: either a
Python `str`, or a non-string value (for example the numeric status
code) carried by the text `%s` would format it to. -/
inductive LogArg
  | str (s : String)
  | nonStr (display : String)
deriving DecidableEq, Repr

/-- The text an argument contributes to the formatted message (`%s`
conversion). -/
def argText : LogArg → String
  | LogArg.str s => s
  | LogArg.nonStr d => d

/-- Python's `'%' in arg` test on the characters of the string. -/
def hasPercent (s : String) : Bool :=
  s.data.contains '%'

/-- The test guarding the decode attempt on line 27:
`isinstance(arg, str) and '%' in arg`. -/
def strWithPercent : LogArg → Bool
  | LogArg.str s => hasPercent s
  | LogArg.nonStr _ => false

/-- One iteration of the loop on lines 26-35: a string argument
containing `'%'` is passed to the decoder `dec` (standing for
`urllib.parse.unquote(arg, encoding='utf-8')`; `none` models the call
raising, which the `except` on line 32 turns into the raw argument);
every other argument is appended unchanged. -/
def decodeOne (dec : String → Option String) : LogArg → LogArg
  | LogArg.str s =>
      if hasPercent s then
        match dec s with
        | some d => LogArg.str d
        | none => LogArg.str s
      else LogArg.str s
  | LogArg.nonStr d => LogArg.nonStr d

/-- The `decoded_args` list built by the loop on lines 25-35. -/
def decodedArgs (dec : String → Option String) (args : List LogArg) : List LogArg :=
  args.map (decodeOne dec)

/-- A piece of a `%`-format string: a literal chunk or a `%s` slot. -/
inductive FmtPiece
  | lit (s : String)
  | slot
deriving DecidableEq, Repr

/-- Python's `format % tuple(decoded_args)`: substitute the arguments
into the slots left to right; `none` models the `TypeError` raised on an
arity mismatch. -/
def renderFmt : List FmtPiece → List LogArg → Option String
  | [], [] => some ""
  | [], _ :: _ => none
  | FmtPiece.lit s :: rest, l => (renderFmt rest l).map (fun t => s ++ t)
  | FmtPiece.slot :: _, [] => none
  | FmtPiece.slot :: rest, a :: l => (renderFmt rest l).map (fun t => argText a ++ t)

/-- The conventional access-log format `'"%s" %s %s'` the base handler
passes to `log_message` (request line, status code, size). -/
def accessLogFmt : List FmtPiece :=
  [FmtPiece.lit "\"", FmtPiece.slot, FmtPiece.lit "\" ", FmtPiece.slot,
   FmtPiece.lit " ", FmtPiece.slot]

/-- The override `log_message` (lines 23-40): decode the arguments, then issue the
single `print` of line 40.  The result is the one printed line (`none`
models the format substitution raising, so that nothing is printed). -/
def log_message (dec : String → Option String) (timestamp client_ip : String)
    (fmt : List FmtPiece) (args : List LogArg) : Option String :=
  (renderFmt fmt (decodedArgs dec args)).map
    (fun msg => "[" ++ timestamp ++ "] " ++ client_ip ++ " - " ++ msg)

/-! ## Response headers (`end_headers`, lines 42-48) -/

/-- The observable state of one HTTP response: the headers attached so
far, and whether the header block has been completed (flushed to the
client by the base class's `end_headers`). -/
structure Response where
  headers : List (String × String)
  completed : Bool
deriving DecidableEq, Repr

/-- Model of `self.send_header(k, v)`: queue one header. -/
def send_header (r : Response) (k v : String) : Response :=
  { headers := r.headers ++ [(k, v)], completed := r.completed }

/-- Model of `super().end_headers()`: complete (flush) the header block. -/
def base_end_headers (r : Response) : Response :=
  { headers := r.headers, completed := true }

/-- The override on lines 42-48: attach the four CORS/cache headers,
then delegate to the base class. -/
def end_headers (r : Response) : Response :=
  base_end_headers
    (send_header
      (send_header
        (send_header
          (send_header r "Access-Control-Allow-Origin" "*")
          "Access-Control-Allow-Methods" "GET, POST, OPTIONS")
        "Access-Control-Allow-Headers" "*")
      "Cache-Control" "no-cache, no-store, must-revalidate")

/-- One response of the base `SimpleHTTPRequestHandler`: for any request
path and status code the library emits its own headers (status line,
`Content-Type`, `Date`, `Server`, ..., abstracted as `base path status`)
and then always finishes the header block through the subclass's
`end_headers` hook.  This funnel point is the library behavior the
override on lines 42-48 relies on. -/
def respond (base : String → Nat → List (String × String))
    (path : String) (status : Nat) : Response :=
  end_headers
    ((base path status).foldl (fun r kv => send_header r kv.1 kv.2)
      { headers := [], completed := false })

/-! ## Server lifecycle (`start_server`, lines 50-113) -/

/-- A raised `OSError`, as observed by the handler on lines 103-108:
its `errno` and its `str(e)` text. -/
structure OSErr where
  errno : Int
  msg : String
deriving DecidableEq, Repr

/-- What happens inside the serve loop once the bind succeeded. -/
inductive ServeOutcome
  | interrupted (stopTs : String)
  | crashed (msg : String)
deriving DecidableEq, Repr

/-- The outcome of `socketserver.TCPServer(("", port), handler)`:
either the bind succeeds and serving ends with the given outcome, or
the constructor raises an `OSError`. -/
inductive BindOutcome
  | ok (outcome : ServeOutcome)
  | fail (e : OSErr)
deriving DecidableEq, Repr

/-- Here `leadsWith p l` is true when `p` is an initial run of `l`. -/
def leadsWith : List Char → List Char → Bool
  | [], _ => true
  | a :: p, l =>
      match l with
      | [] => false
      | b :: r => a == b && leadsWith p r

/-- Here `occursIn p l` is true when `p` occurs contiguously inside `l`. -/
def occursIn (p : List Char) : List Char → Bool
  | [] => p.isEmpty
  | b :: l => leadsWith p (b :: l) || occursIn p l

/-- Python's substring test `sub in s`. -/
def containsSub (s sub : String) : Bool :=
  occursIn sub.data s.data

/-- The test on line 104:
`e.errno == 48 or 'Address already in use' in str(e)`. -/
def isAddrInUse (e : OSErr) : Bool :=
  e.errno == 48 || containsSub e.msg "Address already in use"

/-- The process-state effects `start_server` performs, in order. -/
inductive Event
  | chdir (dir : String)
  | bindAttempt (port : Int)
deriving DecidableEq, Repr

/-- The environment a run is made in: which paths exist as directories,
which exist but are not directories, what binding each port does, the
wall-clock startup timestamp, whether `webbrowser.open` raises (and with
what message), and the working directory the process started in
(`os.getcwd()`). -/
structure Env where
  dirs : List String
  otherPaths : List String
  bind : Int → BindOutcome
  startTs : String
  browserErr : Option String
  cwd0 : String

/-- Model of `os.path.isdir`. -/
def isdir (env : Env) (p : String) : Bool :=
  env.dirs.contains p

/-- Model of `os.path.exists`. -/
def pathExists (env : Env) (p : String) : Bool :=
  env.dirs.contains p || env.otherPaths.contains p

/-- Line 64 and line 151 print the same text:
`f"❌ 错误: 目录 '{directory}' 不存在"`. -/
def dirNotExistLine (d : String) : String :=
  "❌ 错误: 目录 '" ++ d ++ "' 不存在"

/-- Line 154: `f"❌ 错误: '{d}' 不是一个目录"`. -/
def notADirLine (d : String) : String :=
  "❌ 错误: '" ++ d ++ "' 不是一个目录"

/-- Line 145: the invalid-port message. -/
def invalidPortLine : String :=
  "❌ 错误: 端口号必须在 1-65535 范围内"

/-- Line 105: `f"❌ 错误: 端口 {port} 已被占用"`. -/
def portInUseLine (port : Int) : String :=
  "❌ 错误: 端口 " ++ toString port ++ " 已被占用"

/-- Line 106: the retry-another-port suggestion. -/
def suggestLine : String :=
  "💡 建议: 请尝试其他端口，如: python server.py -p 8889"

/-- Line 108: `f"❌ 启动服务器时出错: {e}"` — the `OSError` text is
embedded verbatim. -/
def bindErrorLine (emsg : String) : String :=
  "❌ 启动服务器时出错: " ++ emsg

/-- Line 112: `f"❌ 未知错误: {e}"`. -/
def unknownErrorLine (emsg : String) : String :=
  "❌ 未知错误: " ++ emsg

/-- Line 99: the shutdown message. -/
def stopLine : String :=
  "\n\n🛑 服务器已停止"

/-- Line 100: `f"⏰ 停止时间: {...}"` — the shutdown timestamp line. -/
def stopTimeLine (ts : String) : String :=
  "⏰ 停止时间: " ++ ts

/-- The sixty-character separator `"=" * 60`. -/
def eqBar : String :=
  String.mk (List.replicate 60 '=')

/-- The startup banner printed on lines 75-86 once the bind succeeded. -/
def bannerLines (port : Int) (dir startTs : String) : List String :=
  ["\n" ++ eqBar,
   "🚀 HTTP服务器启动成功！",
   eqBar,
   "📍 访问地址: http://localhost:" ++ toString port,
   "📁 服务目录: " ++ dir,
   "🔌 监听端口: " ++ toString port,
   "⏰ 启动时间: " ++ startTs,
   "\n💡 提示:",
   "   - 按 Ctrl+C 停止服务器",
   "   - 访问日志中的中文URL已自动解码显示",
   "   - 支持CORS跨域访问",
   eqBar ++ "\n"]

/-- Lines 89-94: the optional browser auto-open and its messages. -/
def browserLines (auto_open : Bool) (port : Int) (env : Env) : List String :=
  if auto_open then
    match env.browserErr with
    | none => ["🌐 已自动打开浏览器: http://localhost:" ++ toString port ++ "\n"]
    | some m => ["⚠️  无法自动打开浏览器: " ++ m ++ "\n"]
  else []

/-- The observable result of a `start_server` call: the Python return
value, every `print`ed line in order, the process working directory at
return, and the `chdir`/bind effects in the order performed. -/
structure SSResult where
  success : Bool
  printed : List String
  cwd : String
  trace : List Event
deriving Repr

/-- The function `start_server` (lines 50-113).  Here `directory = none` is Python's
`None`, resolved to `os.getcwd()` on line 60.  The directory check and
`os.chdir` (lines 63-67) precede the bind; a bind-time `OSError` is
dispatched on line 104; a `KeyboardInterrupt` from the serve loop ends
with the shutdown messages and `return True`; any other serving
exception prints the unknown-error line and returns `False`. -/
def start_server (port : Int) (directory : Option String) (auto_open : Bool)
    (env : Env) : SSResult :=
  let dir := directory.getD env.cwd0
  if isdir env dir then
    let pre := bannerLines port dir env.startTs ++ browserLines auto_open port env
    match env.bind port with
    | BindOutcome.ok (ServeOutcome.interrupted ts) =>
        { success := true
          printed := pre ++ [stopLine, stopTimeLine ts]
          cwd := dir
          trace := [Event.chdir dir, Event.bindAttempt port] }
    | BindOutcome.ok (ServeOutcome.crashed m) =>
        { success := false
          printed := pre ++ [unknownErrorLine m]
          cwd := dir
          trace := [Event.chdir dir, Event.bindAttempt port] }
    | BindOutcome.fail e =>
        if isAddrInUse e then
          { success := false
            printed := [portInUseLine port, suggestLine]
            cwd := dir
            trace := [Event.chdir dir, Event.bindAttempt port] }
        else
          { success := false
            printed := [bindErrorLine e.msg]
            cwd := dir
            trace := [Event.chdir dir, Event.bindAttempt port] }
  else
    { success := false
      printed := [dirNotExistLine dir]
      cwd := env.cwd0
      trace := [] }

/-! ## Entry point (`main`, lines 115-159) -/

/-- The parsed CLI arguments (defaults: port 8888, directory `None`,
no auto-open). -/
structure Args where
  port : Int
  directory : Option String
  auto_open : Bool

/-- Python's truthiness test `if args.directory:` on line 149 — false
for `None` and for the empty string. -/
def truthy : Option String → Bool
  | none => false
  | some d => !(d == "")

/-- The observable result of a `main` run: the `sys.exit` code, the
printed lines, final working directory, and the effect trace. -/
structure MainResult where
  exitCode : Nat
  printed : List String
  cwd : String
  trace : List Event
deriving Repr

/-- Lines 158-159: call `start_server` and exit 0 on `True`, 1 on
`False`. -/
def runServer (args : Args) (env : Env) : MainResult :=
  let r := start_server args.port args.directory args.auto_open env
  { exitCode := if r.success then 0 else 1
    printed := r.printed
    cwd := r.cwd
    trace := r.trace }

/-- The entry point `main` (lines 115-159): validate the port range (lines 144-146),
then — when the directory argument is truthy — its existence and
directory-ness (lines 149-155), then run the server. -/
def main (args : Args) (env : Env) : MainResult :=
  if 1 ≤ args.port ∧ args.port ≤ 65535 then
    if truthy args.directory then
      let d := args.directory.getD ""
      if pathExists env d then
        if isdir env d then
          runServer args env
        else
          { exitCode := 1, printed := [notADirLine d], cwd := env.cwd0, trace := [] }
      else
        { exitCode := 1, printed := [dirNotExistLine d], cwd := env.cwd0, trace := [] }
    else
      runServer args env
  else
    { exitCode := 1, printed := [invalidPortLine], cwd := env.cwd0, trace := [] }

/-! ## Helper lemmas -/

/-- Whether the format substitution succeeds depends only on how many
arguments there are, not on their contents. -/
theorem renderFmt_isSome_len (fmt : List FmtPiece) :
    ∀ l1 l2 : List LogArg, l1.length = l2.length →
      (renderFmt fmt l1).isSome = (renderFmt fmt l2).isSome := by
  induction fmt with
  | nil =>
    intro l1 l2 h
    cases l1 <;> cases l2 <;> simp_all [renderFmt]
  | cons p rest ih =>
    intro l1 l2 h
    cases p with
    | lit s =>
      simpa [renderFmt, Option.isSome_map'] using ih l1 l2 h
    | slot =>
      cases l1 with
      | nil => cases l2 <;> simp_all [renderFmt]
      | cons a t1 =>
        cases l2 with
        | nil => simp at h
        | cons b t2 =>
          simp only [renderFmt, Option.isSome_map']
          exact ih t1 t2 (by simpa using h)

/-! ## Claims about the handler (headers and logging) -/

/-- C1: every response the handler produces, for every request path and
every status code, carries the four CORS/cache-control headers, attached
before the header block is completed. -/
theorem c1_cors_cache_headers (base : String → Nat → List (String × String))
    (path : String) (status : Nat) :
    ("Access-Control-Allow-Origin", "*") ∈ (respond base path status).headers ∧
    ("Access-Control-Allow-Methods", "GET, POST, OPTIONS") ∈ (respond base path status).headers ∧
    ("Access-Control-Allow-Headers", "*") ∈ (respond base path status).headers ∧
    ("Cache-Control", "no-cache, no-store, must-revalidate") ∈ (respond base path status).headers ∧
    (respond base path status).completed = true := by
  simp [respond, end_headers, base_end_headers, send_header]

/-- C2: when the decoder fails on a string argument (one that contains
`'%'`, so the decode is attempted), the argument is kept raw and
unmodified in the decoded list, and a decoder failure never changes
whether the log line gets printed (the exception is absorbed by the
`except` on line 32). -/
theorem c2_decode_failure_fallback (dec : String → Option String) (s : String)
    (h1 : hasPercent s = true) (h2 : dec s = none)
    (timestamp client_ip : String) (fmt : List FmtPiece) (args : List LogArg) :
    decodeOne dec (LogArg.str s) = LogArg.str s ∧
    (log_message dec timestamp client_ip fmt args).isSome = (renderFmt fmt args).isSome := by
  constructor
  · simp [decodeOne, h1, h2]
  · simp only [log_message, Option.isSome_map', decodedArgs]
    exact renderFmt_isSome_len fmt _ _ (by simp)

/-- Witness for C2 at a concrete malformed argument and an
always-failing decoder. -/
theorem c2_decode_failure_fallback_witness :
    hasPercent "%E4%" = true ∧
    (fun _ : String => (none : Option String)) "%E4%" = none ∧
    (decodeOne (fun _ : String => none) (LogArg.str "%E4%") = LogArg.str "%E4%" ∧
      (log_message (fun _ : String => none) "2025-01-01 12:00:00" "127.0.0.1" accessLogFmt
          [LogArg.str "%E4%", LogArg.nonStr "404", LogArg.nonStr "-"]).isSome =
        (renderFmt accessLogFmt
          [LogArg.str "%E4%", LogArg.nonStr "404", LogArg.nonStr "-"]).isSome) :=
  ⟨by decide, rfl,
    c2_decode_failure_fallback (fun _ => none) "%E4%" (by decide) rfl
      "2025-01-01 12:00:00" "127.0.0.1" accessLogFmt
      [LogArg.str "%E4%", LogArg.nonStr "404", LogArg.nonStr "-"]⟩

/-- C8: for every handled request the logger prints exactly one line
(the single `print` on line 40, here the one `some` value), of the form
`[timestamp] client-ip - message`, where the message is the conventional
access-log format instantiated with the possibly-decoded arguments. -/
theorem c8_log_line_form (dec : String → Option String) (timestamp client_ip : String)
    (a1 a2 a3 : LogArg) :
    log_message dec timestamp client_ip accessLogFmt [a1, a2, a3] =
      some ("[" ++ timestamp ++ "] " ++ client_ip ++ " - " ++
        ("\"" ++ argText (decodeOne dec a1) ++ "\" " ++ argText (decodeOne dec a2) ++ " " ++
          argText (decodeOne dec a3))) := by
  simp [log_message, decodedArgs, accessLogFmt, renderFmt,
    String.append_assoc, String.append_empty]

/-- C9: decoding is attempted only on string arguments containing a
`'%'`; every other argument passes to the formatted line unchanged. -/
theorem c9_no_decode_outside_scope (dec : String → Option String) (a : LogArg)
    (h : strWithPercent a = false) :
    decodeOne dec a = a := by
  cases a with
  | str s =>
    simp only [strWithPercent] at h
    simp [decodeOne, h]
  | nonStr d => rfl

/-- Witness for C9 at a non-string argument and a decoder that would
have changed it. -/
theorem c9_no_decode_outside_scope_witness :
    strWithPercent (LogArg.nonStr "200") = false ∧
    decodeOne (fun t : String => some (t ++ "!")) (LogArg.nonStr "200") = LogArg.nonStr "200" :=
  ⟨by decide, c9_no_decode_outside_scope (fun t => some (t ++ "!")) (LogArg.nonStr "200") (by decide)⟩

/-! ## Helper lemmas about the lifecycle -/

/-- If `start_server` got as far as attempting the bind, the serving
root passed the directory check. -/
theorem ss_trace_isdir (port : Int) (directory : Option String) (auto_open : Bool)
    (env : Env)
    (hb : Event.bindAttempt port ∈ (start_server port directory auto_open env).trace) :
    isdir env (directory.getD env.cwd0) = true := by
  by_cases h : isdir env (directory.getD env.cwd0) = true
  · exact h
  · exfalso
    simp only [Bool.not_eq_true] at h
    simp [start_server, h] at hb

/-- If a `main` run attempted the bind, every validation passed and the
run is exactly the `start_server` call of lines 158-159. -/
theorem main_bind_runServer (args : Args) (env : Env)
    (hb : Event.bindAttempt args.port ∈ (main args env).trace) :
    main args env = runServer args env := by
  by_cases hp : 1 ≤ args.port ∧ args.port ≤ 65535
  · cases htd : truthy args.directory with
    | false => simp [main, hp, htd]
    | true =>
      by_cases hex : pathExists env (args.directory.getD "") = true
      · by_cases hd : isdir env (args.directory.getD "") = true
        · simp [main, hp, htd, hex, hd]
        · simp only [Bool.not_eq_true] at hd
          simp [main, hp, htd, hex, hd] at hb
      · simp only [Bool.not_eq_true] at hex
        simp [main, hp, htd, hex] at hb
  · simp [main, hp] at hb

/-- Evaluation of `start_server` when the directory check passes and the
bind raises an `OSError`. -/
theorem ss_bind_fail (port : Int) (directory : Option String) (auto_open : Bool)
    (env : Env) (e : OSErr)
    (hdir : isdir env (directory.getD env.cwd0) = true)
    (hf : env.bind port = BindOutcome.fail e) :
    start_server port directory auto_open env =
      { success := false
        printed := if isAddrInUse e then [portInUseLine port, suggestLine]
                   else [bindErrorLine e.msg]
        cwd := directory.getD env.cwd0
        trace := [Event.chdir (directory.getD env.cwd0), Event.bindAttempt port] } := by
  cases ha : isAddrInUse e <;> simp [start_server, hdir, hf, ha]

/-- Evaluation of `start_server` when the directory check passes and the
serve loop ends in a `KeyboardInterrupt`. -/
theorem ss_interrupted (port : Int) (directory : Option String) (auto_open : Bool)
    (env : Env) (ts : String)
    (hdir : isdir env (directory.getD env.cwd0) = true)
    (hi : env.bind port = BindOutcome.ok (ServeOutcome.interrupted ts)) :
    start_server port directory auto_open env =
      { success := true
        printed := bannerLines port (directory.getD env.cwd0) env.startTs ++
                   (browserLines auto_open port env ++ [stopLine, stopTimeLine ts])
        cwd := directory.getD env.cwd0
        trace := [Event.chdir (directory.getD env.cwd0), Event.bindAttempt port] } := by
  simp [start_server, hdir, hi, List.append_assoc]

/-- A concrete environment used to exercise the lifecycle theorems:
`www` is a directory, `file.txt` exists but is not one, port 8888 is
taken, every other port binds and is then interrupted. -/
def envW : Env :=
  { dirs := ["www"]
    otherPaths := ["file.txt"]
    bind := fun p =>
      if p == 8888 then
        BindOutcome.fail { errno := 48, msg := "[Errno 48] Address already in use" }
      else
        BindOutcome.ok (ServeOutcome.interrupted "2025-01-01 12:00:01")
    startTs := "2025-01-01 12:00:00"
    browserErr := none
    cwd0 := "/home/user" }

/-! ## Claims about the lifecycle -/

/-- C3: an out-of-range port makes the process print the invalid-port
error and exit 1 before any bind (indeed before any effect at all). -/
theorem c3_invalid_port (args : Args) (env : Env)
    (h : args.port < 1 ∨ 65535 < args.port) :
    (main args env).exitCode = 1 ∧
    (main args env).printed = [invalidPortLine] ∧
    (main args env).trace = [] := by
  have hp : ¬(1 ≤ args.port ∧ args.port ≤ 65535) := by omega
  simp [main, hp]

/-- Witness for C3 at port 0. -/
theorem c3_invalid_port_witness :
    ((0 : Int) < 1 ∨ (65535 : Int) < 0) ∧
    ((main ⟨0, none, false⟩ envW).exitCode = 1 ∧
     (main ⟨0, none, false⟩ envW).printed = [invalidPortLine] ∧
     (main ⟨0, none, false⟩ envW).trace = []) :=
  ⟨Or.inl (by decide), c3_invalid_port ⟨0, none, false⟩ envW (Or.inl (by decide))⟩

/-- C4, counterexample to the claim as stated: with a nonexistent
directory `missing` and port 0 the process reports the invalid-port
error, not a directory error (the port is validated first, lines
144-146). -/
theorem c4_counterexample :
    (main ⟨0, some "missing", false⟩ envW).printed = [invalidPortLine] ∧
    invalidPortLine ≠ dirNotExistLine "missing" ∧
    invalidPortLine ≠ notADirLine "missing" :=
  ⟨rfl, by decide, by decide⟩

/-- C4 as amended: when the port is within 1-65535, a directory
argument that does not exist or is not a directory makes the process
exit 1 with a directory error (dir-not-exist or not-a-directory), with
no bind and no `chdir` attempted. -/
theorem c4_dir_error (args : Args) (env : Env) (d : String)
    (hp : 1 ≤ args.port ∧ args.port ≤ 65535)
    (hd : args.directory = some d)
    (hbad : isdir env d = false) :
    (main args env).exitCode = 1 ∧
    (main args env).trace = [] ∧
    ((main args env).printed = [dirNotExistLine d] ∨
     (main args env).printed = [notADirLine d]) := by
  by_cases hde : d = ""
  · subst hde
    simp [main, hp, hd, truthy, runServer, start_server, hbad]
  · by_cases hex : pathExists env d = true
    · simp [main, hp, hd, truthy, hde, hex, hbad]
    · simp only [Bool.not_eq_true] at hex
      simp [main, hp, hd, truthy, hde, hex]

/-- Witness for the amended C4 at a valid port and a nonexistent
directory. -/
theorem c4_dir_error_witness :
    ((1 : Int) ≤ 8080 ∧ (8080 : Int) ≤ 65535) ∧
    (⟨8080, some "missing", false⟩ : Args).directory = some "missing" ∧
    isdir envW "missing" = false ∧
    ((main ⟨8080, some "missing", false⟩ envW).exitCode = 1 ∧
     (main ⟨8080, some "missing", false⟩ envW).trace = [] ∧
     ((main ⟨8080, some "missing", false⟩ envW).printed = [dirNotExistLine "missing"] ∨
      (main ⟨8080, some "missing", false⟩ envW).printed = [notADirLine "missing"])) :=
  ⟨⟨by decide, by decide⟩, rfl, by decide,
    c4_dir_error ⟨8080, some "missing", false⟩ envW "missing"
      ⟨by decide, by decide⟩ rfl (by decide)⟩

/-- C5, counterexample to the claim as stated: with a nonexistent
directory `nope` and the out-of-range port 70000 the reported failure
is the invalid-port error, not the directory error — the code validates
the port before the directory. -/
theorem c5_counterexample :
    (main ⟨70000, some "nope", false⟩ envW).printed = [invalidPortLine] ∧
    invalidPortLine ≠ dirNotExistLine "nope" ∧
    invalidPortLine ≠ notADirLine "nope" :=
  ⟨rfl, by decide, by decide⟩

/-- C5 as amended: startup validates the port (lines 144-146) before
the directory (lines 149-155); for every invocation in which the
directory does not exist and the port is also outside [1, 65535], the
reported failure is the invalid-port error, with exit code 1. -/
theorem c5_port_checked_first (args : Args) (env : Env) (d : String)
    (hp : args.port < 1 ∨ 65535 < args.port)
    (hd : args.directory = some d)
    (hex : pathExists env d = false) :
    (main args env).exitCode = 1 ∧
    (main args env).printed = [invalidPortLine] := by
  have hnp : ¬(1 ≤ args.port ∧ args.port ≤ 65535) := by omega
  simp [main, hnp]

/-- Witness for the amended C5 at port 70000 and a nonexistent
directory. -/
theorem c5_port_checked_first_witness :
    ((70000 : Int) < 1 ∨ (65535 : Int) < 70000) ∧
    (⟨70000, some "nope", false⟩ : Args).directory = some "nope" ∧
    pathExists envW "nope" = false ∧
    ((main ⟨70000, some "nope", false⟩ envW).exitCode = 1 ∧
     (main ⟨70000, some "nope", false⟩ envW).printed = [invalidPortLine]) :=
  ⟨Or.inr (by decide), rfl, by decide,
    c5_port_checked_first ⟨70000, some "nope", false⟩ envW "nope"
      (Or.inr (by decide)) rfl (by decide)⟩

/-- C6: when a run attempts the bind and the bind raises, the process
exits 1; if the error indicates the address is in use (the test on line
104) the output is the port-in-use error plus the retry suggestion, and
on any other bind failure the output is the startup-error line, which
embeds `str(e)` verbatim. -/
theorem c6_bind_failure (args : Args) (env : Env) (e : OSErr)
    (hb : Event.bindAttempt args.port ∈ (main args env).trace)
    (hf : env.bind args.port = BindOutcome.fail e) :
    (main args env).exitCode = 1 ∧
    (isAddrInUse e = true →
      (main args env).printed = [portInUseLine args.port, suggestLine]) ∧
    (isAddrInUse e = false →
      (main args env).printed = [bindErrorLine e.msg]) := by
  have hrun := main_bind_runServer args env hb
  rw [hrun] at hb
  have hdir : isdir env (args.directory.getD env.cwd0) = true := by
    apply ss_trace_isdir args.port args.directory args.auto_open env
    simpa [runServer] using hb
  have hss := ss_bind_fail args.port args.directory args.auto_open env e hdir hf
  rw [hrun]
  cases ha : isAddrInUse e <;> simp [runServer, hss, ha]

/-- Witness for C6: port 8888 is taken in `envW`. -/
theorem c6_bind_failure_witness :
    Event.bindAttempt (8888 : Int) ∈ (main ⟨8888, some "www", false⟩ envW).trace ∧
    envW.bind 8888 =
      BindOutcome.fail { errno := 48, msg := "[Errno 48] Address already in use" } ∧
    ((main ⟨8888, some "www", false⟩ envW).exitCode = 1 ∧
     (isAddrInUse { errno := 48, msg := "[Errno 48] Address already in use" } = true →
       (main ⟨8888, some "www", false⟩ envW).printed = [portInUseLine 8888, suggestLine]) ∧
     (isAddrInUse { errno := 48, msg := "[Errno 48] Address already in use" } = false →
       (main ⟨8888, some "www", false⟩ envW).printed =
         [bindErrorLine "[Errno 48] Address already in use"])) :=
  ⟨by decide, rfl,
    c6_bind_failure ⟨8888, some "www", false⟩ envW
      { errno := 48, msg := "[Errno 48] Address already in use" } (by decide) rfl⟩

/-- C7: when a run attempts the bind, binds, and the serve loop is
interrupted, the process exits 0 and the output contains the shutdown
message and the shutdown-timestamp line. -/
theorem c7_interrupt_clean_exit (args : Args) (env : Env) (ts : String)
    (hb : Event.bindAttempt args.port ∈ (main args env).trace)
    (hi : env.bind args.port = BindOutcome.ok (ServeOutcome.interrupted ts)) :
    (main args env).exitCode = 0 ∧
    stopLine ∈ (main args env).printed ∧
    stopTimeLine ts ∈ (main args env).printed := by
  have hrun := main_bind_runServer args env hb
  rw [hrun] at hb
  have hdir : isdir env (args.directory.getD env.cwd0) = true := by
    apply ss_trace_isdir args.port args.directory args.auto_open env
    simpa [runServer] using hb
  have hss := ss_interrupted args.port args.directory args.auto_open env ts hdir hi
  rw [hrun]
  simp [runServer, hss]

/-- Witness for C7: port 9090 binds in `envW` and the loop is then
interrupted. -/
theorem c7_interrupt_clean_exit_witness :
    Event.bindAttempt (9090 : Int) ∈ (main ⟨9090, some "www", false⟩ envW).trace ∧
    envW.bind 9090 = BindOutcome.ok (ServeOutcome.interrupted "2025-01-01 12:00:01") ∧
    ((main ⟨9090, some "www", false⟩ envW).exitCode = 0 ∧
     stopLine ∈ (main ⟨9090, some "www", false⟩ envW).printed ∧
     stopTimeLine "2025-01-01 12:00:01" ∈ (main ⟨9090, some "www", false⟩ envW).printed) :=
  ⟨by decide, rfl,
    c7_interrupt_clean_exit ⟨9090, some "www", false⟩ envW "2025-01-01 12:00:01"
      (by decide) rfl⟩

/-- C10: `start_server` changes the working directory to the serving
root before attempting the bind (the trace is exactly `chdir` then
`bindAttempt`), and after a bind failure the working directory is still
the serving root — the change is not undone. -/
theorem c10_chdir_persists (port : Int) (directory : Option String) (auto_open : Bool)
    (env : Env) (e : OSErr)
    (hdir : isdir env (directory.getD env.cwd0) = true)
    (hf : env.bind port = BindOutcome.fail e) :
    (start_server port directory auto_open env).cwd = directory.getD env.cwd0 ∧
    (start_server port directory auto_open env).trace =
      [Event.chdir (directory.getD env.cwd0), Event.bindAttempt port] := by
  have hss := ss_bind_fail port directory auto_open env e hdir hf
  simp [hss]

/-- Witness for C10: after the failed bind on port 8888 the working
directory is `www`, not the starting directory `/home/user`. -/
theorem c10_chdir_persists_witness :
    isdir envW ((some "www").getD envW.cwd0) = true ∧
    envW.bind 8888 =
      BindOutcome.fail { errno := 48, msg := "[Errno 48] Address already in use" } ∧
    ((start_server 8888 (some "www") false envW).cwd = (some "www").getD envW.cwd0 ∧
     (start_server 8888 (some "www") false envW).trace =
       [Event.chdir ((some "www").getD envW.cwd0), Event.bindAttempt 8888]) :=
  ⟨by decide, rfl,
    c10_chdir_persists 8888 (some "www") false envW
      { errno := 48, msg := "[Errno 48] Address already in use" } (by decide) rfl⟩

end Server
